import Mathlib

/-!
Verification development for the ICARIA field-worker alert scripts
(`alerts.py`, `main.py`, `params.py`).  The repository computes, for each
participant of a clinical trial, which follow-up alert string should be
displayed in the `child_fu_status` field of a REDCap record.

This file gives a shallow embedding of the data model (a REDCap export is a
list of rows keyed by record id and event name) and of the alert predicates
and diff-and-apply steps, and proves or refutes the frozen claims about them.

Conventions of the embedding:
* Dates are calendar dates `y/m/d`; day arithmetic goes through `toDays`
  (days since the Unix epoch, civil-calendar algorithm).  `datetime.today()`
  is modelled as an explicit `today : Date` taken at midnight.
* pandas cells that can be either an unparsed string or a parsed timestamp
  are modelled by `DateCell`; `pandas.to_datetime` is `DateCell.toDT`.
  A missing value (NaN / NaT) is `raw none` / `ts none`.
* Numeric/categorical cells are `Option Int` (`none` = NaN).  The pandas
  comparison semantics `NaN == c → False` and `NaN != c → True` are exactly
  the `Option` equalities `none = some c → False`, `none ≠ some c → True`.
* pandas `groupby('record_id')` aggregations become explicit folds over the
  rows of one record id; index/set differences become list filters, with
  membership as the observable.
-/

namespace Icaria

/-- A calendar date (year, month, day). -/
structure Date where
  y : Int
  m : Int
  d : Int
deriving DecidableEq, Repr

/-- Gregorian leap year. -/
def isLeap (y : Int) : Bool :=
  (y % 4 == 0 && y % 100 != 0) || (y % 400 == 0)

/-- Days since 1970-01-01 of a civil date (Hinnant's `days_from_civil`,
with Lean's euclidean `/` and `%`, which agree with the C algorithm on the
shifted year and also handle negative years by flooring). -/
def toDays (dt : Date) : Int :=
  let y := if dt.m ≤ 2 then dt.y - 1 else dt.y
  let era := y / 400
  let yoe := y - era * 400
  let mp := (dt.m + 9) % 12
  let doy := (153 * mp + 2) / 5 + dt.d - 1
  let doe := yoe * 365 + yoe / 4 - yoe / 100 + doy
  era * 146097 + doe - 719468

/-- Number of days of a month. -/
def daysInMonth (y m : Int) : Int :=
  if m = 2 then (if isLeap y then 29 else 28)
  else if m = 4 ∨ m = 6 ∨ m = 9 ∨ m = 11 then 30 else 31

/-- `dateutil.relativedelta(months=+k)`: add `k` months, clamping the day of
month to the last valid day. -/
def addMonths (dt : Date) (k : Int) : Date :=
  let t := dt.y * 12 + (dt.m - 1) + k
  let y := t / 12
  let m := t % 12 + 1
  ⟨y, m, min dt.d (daysInMonth y m)⟩

/-- `alerts.calculate_age_months`: age in whole calendar months, computed
from the year and month fields only. -/
def calculate_age_months (today dob : Date) : Int :=
  (today.y - dob.y) * 12 + (today.m - dob.m)

/-- `alerts.days_to_birthday`: `(dob + relativedelta(months=+fu) - today).days`. -/
def days_to_birthday (today dob : Date) (fu : Int) : Int :=
  toDays (addMonths dob fu) - toDays today

/-- Split a character list on a separator character. -/
def splitOnChar (sep : Char) : List Char → List (List Char)
  | [] => [[]]
  | c :: cs =>
    let rest := splitOnChar sep cs
    if c == sep then [] :: rest
    else
      match rest with
      | [] => [[c]]
      | g :: gs => (c :: g) :: gs

/-- Parse a decimal digit list into a number (`none` on empty input or a
non-digit character). -/
def natOfDigitsAux : List Char → Nat → Option Nat
  | [], acc => some acc
  | c :: cs, acc =>
    if 48 ≤ c.toNat ∧ c.toNat ≤ 57 then
      natOfDigitsAux cs (acc * 10 + (c.toNat - 48))
    else none

/-- Parse a non-empty decimal digit list. -/
def natOfDigits : List Char → Option Nat
  | [] => none
  | l => natOfDigitsAux l 0

/-- Parse a REDCap date string `"YYYY-MM-DD"` (an optional time-of-day part
after a space is ignored, as the dates are compared at day granularity). -/
def parseYmd (s : String) : Option Date :=
  match splitOnChar ' ' s.data with
  | [] => none
  | t :: _ =>
    match splitOnChar '-' t with
    | [ys, ms, ds] =>
      match natOfDigits ys, natOfDigits ms, natOfDigits ds with
      | some y, some m, some d =>
        if 1 ≤ m ∧ m ≤ 12 ∧ 1 ≤ d ∧ d ≤ 31 ∧ 1 ≤ y then
          some ⟨(y : Int), (m : Int), (d : Int)⟩
        else none
      | _, _, _ => none
    | _ => none

/-- A date-valued pandas cell: either still a raw string column entry
(`none` = NaN) or an already converted datetime entry (`none` = NaT). -/
inductive DateCell
  | raw (s : Option String)
  | ts (d : Option Date)
deriving DecidableEq, Repr

/-- `pandas.to_datetime` on one cell. -/
def DateCell.toDT : DateCell → DateCell
  | .raw none => .ts none
  | .raw (some s) => .ts (parseYmd s)
  | .ts d => .ts d

/-- The date value a cell denotes (NaN/NaT/unparseable = `none`). -/
def DateCell.val : DateCell → Option Date
  | .raw none => none
  | .raw (some s) => parseYmd s
  | .ts d => d

theorem DateCell.val_toDT (c : DateCell) : c.toDT.val = c.val := by
  cases c with
  | raw s => cases s <;> rfl
  | ts d => rfl

theorem DateCell.toDT_toDT (c : DateCell) : c.toDT.toDT = c.toDT := by
  cases c with
  | raw s => cases s <;> rfl
  | ts d => rfl

/-- One row of the exported REDCap data frame: one (record id, event) pair
with the columns used by the alert logic (`params.ALERT_LOGIC_FIELDS`). -/
structure Row where
  record_id : Nat
  event : String
  repeat_instr : String
  child_fu_status : Option String
  community : Option Int
  int_azi : Option Int
  int_date : DateCell
  int_next_visit : DateCell
  comp_date : DateCell
  child_dob : DateCell
  intervention_complete : Option Int
  fu_type : Option Int
  phone_success : Option Int
  call_caretaker : Option Int
  hh_child_seen : Option Int
  hh_why_not_child_seen : Option Int
  reachable_status : Option Int
  phone_child_status : Option Int
deriving DecidableEq, Repr

/-- A blank row for a given record id and event name (all cells missing). -/
def mkRow (rid : Nat) (ev : String) : Row :=
  ⟨rid, ev, "", none, none, none, .raw none, .raw none, .raw none, .raw none,
   none, none, none, none, none, none, none, none⟩

/-- The distinct record ids of a frame (the keys a pandas `groupby` ranges
over). -/
def recordIds (df : List Row) : List Nat :=
  (df.map Row.record_id).dedup

theorem mem_recordIds {df : List Row} {p : Nat} :
    p ∈ recordIds df ↔ ∃ r ∈ df, r.record_id = p := by
  simp [recordIds, List.mem_dedup, List.mem_map]

/-- The larger of two optional dates (pandas `max` skipping NaT). -/
def maxOptDate : Option Date → Option Date → Option Date
  | none, b => b
  | some a, none => some a
  | some a, some b => if toDays b > toDays a then some b else some a

/-- `df.groupby('record_id')[col].max()` at record id `p`, for the date
column selected by `f` (`none` when all of `p`'s entries are missing). -/
def maxDateOf (f : Row → DateCell) : List Row → Nat → Option Date
  | [], _ => none
  | r :: rest, p =>
    if r.record_id = p then maxOptDate (f r).val (maxDateOf f rest p)
    else maxDateOf f rest p

theorem maxDateOf_some_mem {f : Row → DateCell} {df : List Row} {p : Nat}
    {d : Date} (h : maxDateOf f df p = some d) : p ∈ recordIds df := by
  induction df with
  | nil => simp [maxDateOf] at h
  | cons r rest ih =>
    rw [maxDateOf] at h
    by_cases hr : r.record_id = p
    · exact mem_recordIds.mpr ⟨r, List.mem_cons_self r rest, hr⟩
    · rw [if_neg hr] at h
      rcases mem_recordIds.mp (ih h) with ⟨r', hr', h'⟩
      exact mem_recordIds.mpr ⟨r', List.mem_cons_of_mem r hr', h'⟩

/-- Character-list version of the string matcher (kernel-executable). -/
def listStarts : List Char → List Char → Bool
  | [], _ => true
  | _ :: _, [] => false
  | c :: cs, d :: ds => c == d && listStarts cs ds

/-- Python `s.startswith(code)` / pandas `Series.str.startswith`. -/
def strBegins (code s : String) : Bool :=
  listStarts code.data s.data

/-- The `child_fu_status` series at the follow-up status event:
`redcap_data.loc[(slice(None), fu_status_event), 'child_fu_status']`. -/
def statusRows (df : List Row) (fuEvent : String) : List Row :=
  df.filter (fun r => decide (r.event = fuEvent))

/-- Whether a status string matches an alert code in the `'Normal'` mode of
`alerts.get_active_alerts`: it starts with the bare code or with the
sub-cohort spelling `COH.` ++ code (`NaN` never matches). -/
def statusMatches (alert : String) : Option String → Bool
  | none => false
  | some s => strBegins alert s || strBegins (String.append "COH." alert) s

/-- `alerts.get_active_alerts` (the `'Normal'` branch): the record ids whose
non-null status at the follow-up event matches the alert code, or `none`
when the status column holds no non-null value at all at that event. -/
def get_active_alerts (df : List Row) (alert : String) (fuEvent : String) :
    Option (List Nat) :=
  let nonnull := (statusRows df fuEvent).filter (fun r => r.child_fu_status.isSome)
  if nonnull.isEmpty then none
  else
    some ((nonnull.filter (fun r => statusMatches alert r.child_fu_status)).map
      Row.record_id)

/-- `series.str.startswith(alert)` on an optional status cell. -/
def statusStarts (alert : String) : Option String → Bool
  | none => false
  | some s => strBegins alert s

/-- The seven all-space strings that `get_record_ids_with_custom_status`
collects for correction (lengths 1 to 7). -/
def blankStatusesToCorrect : List String :=
  [" ", "  ", "   ", "    ", "     ", "      ", "       "]

/-- The six all-space strings that `get_record_ids_with_custom_status`
excludes from the custom set (lengths 1 to 6 only). -/
def blankStatusesExcluded : List String :=
  [" ", "  ", "   ", "    ", "     ", "      "]

/-- `alerts.get_record_ids_with_custom_status`.  Returns the custom-status
record ids (`none` when no non-null status exists at the follow-up event)
together with the list of blank-status corrections it imports back into
REDCap (pairs `(record_id, "")`). -/
def get_record_ids_with_custom_status (df : List Row)
    (definedAlerts : List String) (fuEvent : String) :
    Option (List Nat) × List (Nat × String) :=
  let active := (statusRows df fuEvent).filter (fun r => r.child_fu_status.isSome)
  if active.isEmpty then (none, [])
  else
    let custom0 := active.filter
      (fun r => definedAlerts.all (fun a => !(statusStarts a r.child_fu_status)))
    let emptyToCorrect := custom0.filter
      (fun r => decide ((r.child_fu_status.getD "") ∈ blankStatusesToCorrect))
    let custom := custom0.filter
      (fun r => decide ((r.child_fu_status.getD "") ∉ blankStatusesExcluded))
    (some (custom.map Row.record_id),
     emptyToCorrect.map (fun r => (r.record_id, "")))

/-- `groupby('record_id').last()` of one column: pandas takes the last
non-null entry of the column within the group. -/
def lastNonNull (f : Row → Option Int) : List Row → Option Int
  | [] => none
  | r :: rest =>
    match lastNonNull f rest with
    | some v => some v
    | none => f r

/-- The rows of record id `p` at the household follow-up event
`hhafter_1st_dose_o_arm_1`. -/
def hhRows (df : List Row) (p : Nat) : List Row :=
  df.filter (fun r =>
    decide (r.record_id = p ∧ r.event = "hhafter_1st_dose_o_arm_1"))

/-- Column `f` of `last_hh_done` (the per-record last household follow-up
row) for record id `p`. -/
def lastHH (df : List Row) (p : Nat) (f : Row → Option Int) : Option Int :=
  lastNonNull f (hhRows df p)

/-- The `phone_unsuccess` condition of `alerts.get_record_ids_tbv`:
`fu_type == 1 and (phone_success == 0 or call_caretaker == 0)`. -/
def phoneUnsuccess (df : List Row) (p : Nat) : Bool :=
  decide (lastHH df p Row.fu_type = some 1 ∧
    (lastHH df p Row.phone_success = some 0 ∨
     lastHH df p Row.call_caretaker = some 0))

/-- The `visit_unsuccess` condition of `alerts.get_record_ids_tbv`:
`(fu_type == 2 or fu_type == 3) and (hh_child_seen != 1 and
reachable_status != 1)`; note that a NaN cell satisfies `!= 1`. -/
def visitUnsuccess (df : List Row) (p : Nat) : Bool :=
  decide ((lastHH df p Row.fu_type = some 2 ∨ lastHH df p Row.fu_type = some 3) ∧
    lastHH df p Row.hh_child_seen ≠ some 1 ∧
    lastHH df p Row.reachable_status ≠ some 1)

/-- The `old_visit_unsuccess` condition of `alerts.get_record_ids_tbv`. -/
def oldVisitUnsuccess (df : List Row) (p : Nat) : Bool :=
  decide ((lastHH df p Row.fu_type ≠ some 1 ∧ lastHH df p Row.fu_type ≠ some 2 ∧
    lastHH df p Row.fu_type ≠ some 3) ∧
    lastHH df p Row.hh_child_seen = some 0 ∧
    lastHH df p Row.hh_why_not_child_seen = some 1)

namespace Alerts

/-- `alerts.get_record_ids_tbv` (the "new version" used by
`alerts.set_tbv_alerts`): the recruited participants with no household
follow-up row at all, plus those whose last household follow-up attempt is
unsuccessful by the type-specific rules.  The result is an id set; the
embedding dedups the concatenation, matching the set semantics of the
`Index.difference` operations applied to it downstream. -/
def get_record_ids_tbv (df : List Row) : List Nat :=
  let epi1 := (df.filter (fun r => decide (r.event = "epipenta1_v0_recru_arm_1"))).map
    Row.record_id
  let hh1 := (df.filter (fun r => decide (r.event = "hhafter_1st_dose_o_arm_1"))).map
    Row.record_id
  let notDoneYet := epi1.dedup.filter (fun p => decide (p ∉ hh1))
  let unsuccess := hh1.dedup.filter
    (fun p => phoneUnsuccess df p || visitUnsuccess df p || oldVisitUnsuccess df p)
  (notDoneYet ++ unsuccess).dedup

end Alerts

/-- `sum` aggregation of `df.groupby('record_id')[col].sum()` at record id
`p` (pandas treats NaN as 0 in the sum). -/
def sumOf (f : Row → Option Int) : List Row → Nat → Int
  | [], _ => 0
  | r :: rest, p =>
    (if r.record_id = p then (f r).getD 0 else 0) + sumOf f rest p

namespace Main

/-- `main.get_record_ids_tbv`: the AZi-supervision index is the number of
AZi/Pbo doses minus the number of household visits with the child seen; a
record qualifies exactly when the index is positive. -/
def get_record_ids_tbv (df : List Row) : List Nat :=
  (recordIds df).filter (fun p =>
    decide (sumOf Row.int_azi df p - sumOf Row.hh_child_seen df p > 0))

end Main

/-- In-place `x['int_next_visit'] = pandas.to_datetime(x['int_next_visit'])`:
the conversion `get_record_ids_nv` applies to its input frame. -/
def toDatetimeNextVisit (df : List Row) : List Row :=
  df.map (fun r => { r with int_next_visit := r.int_next_visit.toDT })

/-- The per-record most recent next-visit date (max of `int_next_visit`). -/
def maxNextVisit (df : List Row) (p : Nat) : Option Date :=
  maxDateOf Row.int_next_visit df p

/-- `alerts.get_record_ids_nv` (identical to `main.get_record_ids_nv`): the
record ids whose last return date `d` satisfies
`-days_before ≤ today - d < days_after` (day counts), paired with the frame
the function leaves behind after its in-place datetime conversion. -/
def get_record_ids_nv (df : List Row) (daysBefore daysAfter : Int)
    (today : Date) : List Nat × List Row :=
  let x := toDatetimeNextVisit df
  let ids := (recordIds x).filter (fun p =>
    match maxNextVisit x p with
    | none => false
    | some d =>
      decide (-daysBefore ≤ toDays today - toDays d) &&
      decide (toDays today - toDays d < daysAfter))
  (ids, x)

/-- In-place conversion of `int_next_visit` and `comp_date` performed by
`get_record_ids_nc`. -/
def toDatetimeNc (df : List Row) : List Row :=
  df.map (fun r =>
    { r with int_next_visit := r.int_next_visit.toDT, comp_date := r.comp_date.toDT })

/-- The per-record most recent non-compliance-visit date (max `comp_date`). -/
def maxCompDate (df : List Row) (p : Nat) : Option Date :=
  maxDateOf Row.comp_date df p

/-- Strict `>` on optional dates with pandas semantics: any comparison with
NaT is `False`. -/
def optDateGt : Option Date → Option Date → Bool
  | some a, some b => decide (toDays a > toDays b)
  | _, _ => false

/-- The `completed_epi` query of `alerts.get_record_ids_nc`:
`redcap_event_name == 'epimvr2_v6_iptisp6_arm_1' and intervention_complete == 2`. -/
def completedEpi (df : List Row) (p : Nat) : Bool :=
  df.any (fun r => decide (r.record_id = p ∧
    r.event = "epimvr2_v6_iptisp6_arm_1" ∧ r.intervention_complete = some 2))

/-- `alerts.get_record_ids_nc`: record ids whose last return date is more
than `days_to_nc` days before today, not superseded by a later `comp_date`,
minus the records that completed the EPI schedule at the MRV2 event; paired
with the frame left behind by the in-place conversions. -/
def get_record_ids_nc (df : List Row) (daysToNc : Int) (today : Date) :
    List Nat × List Row :=
  let x := toDatetimeNc df
  let ids := (recordIds x).filter (fun p =>
    match maxNextVisit x p with
    | none => false
    | some d =>
      !(optDateGt (maxCompDate x p) (some d)) &&
      decide (toDays today - toDays d > daysToNc) &&
      !(completedEpi x p))
  (ids, x)

/-- In-place conversion of `child_dob` performed by
`get_record_ids_end_trial_fu`. -/
def toDatetimeDob (df : List Row) : List Row :=
  df.map (fun r => { r with child_dob := r.child_dob.toDT })

/-- The `finalized` query of `alerts.get_record_ids_end_trial_fu`: a
household-follow-up row at the 18th-month event confirming the child seen
or one of the completed/unreachable reason codes. -/
def endFuFinalizedRow (r : Row) : Prop :=
  r.event = "hhat_18th_month_of_arm_1" ∧
  r.repeat_instr = "household_follow_up" ∧
  (r.hh_child_seen = some 1 ∨ r.phone_child_status = some 1 ∨
   r.phone_child_status = some 4 ∨ r.hh_why_not_child_seen = some 1 ∨
   r.hh_why_not_child_seen = some 4 ∨ r.hh_why_not_child_seen = some 5)

instance (r : Row) : Decidable (endFuFinalizedRow r) := by
  unfold endFuFinalizedRow; infer_instance

/-- The `unreachable` query of `alerts.get_record_ids_end_trial_fu`: a
household-follow-up row at the 18th-month event with `reachable_status == 2`. -/
def endFuUnreachableRow (r : Row) : Prop :=
  r.event = "hhat_18th_month_of_arm_1" ∧
  r.repeat_instr = "household_follow_up" ∧ r.reachable_status = some 2

instance (r : Row) : Decidable (endFuUnreachableRow r) := by
  unfold endFuUnreachableRow; infer_instance

/-- `alerts.get_record_ids_end_trial_fu`: returns the participants about to
turn `fu_age` (18) months who are neither finalized nor unreachable,
together with the `record_ids_seen` ("completed") and `records_unreachable`
id sets.  (The `is not None` guards in the source are always true: a pandas
`query` returns a data frame, never `None`.) -/
def get_record_ids_end_trial_fu (df : List Row) (daysBefore : Int)
    (today : Date) (fuAge aboutToTurn : Int) :
    List Nat × List Nat × List Nat :=
  let x := toDatetimeDob df
  let about18 := (recordIds x).filter (fun p =>
    match maxDateOf Row.child_dob x p with
    | none => false
    | some dob =>
      decide (calculate_age_months today dob ≥ aboutToTurn) &&
      decide (days_to_birthday today dob fuAge < daysBefore))
  let seen := (x.filter (fun r => decide (endFuFinalizedRow r))).map Row.record_id
  let unreachable := (x.filter (fun r => decide (endFuUnreachableRow r))).map
    Row.record_id
  (about18.filter (fun p => decide (p ∉ seen) && decide (p ∉ unreachable)),
   seen, unreachable)

/-- The `real_unreachable` set computed by `alerts.set_end_fu_alerts` for
the trial study: `records_unreachable.difference(records_completed)`. -/
def set_end_fu_real_unreachable (df : List Row) (daysBefore : Int)
    (today : Date) : List Nat :=
  let r := get_record_ids_end_trial_fu df daysBefore today 18 17
  r.2.2.filter (fun p => decide (p ∉ r.2.1))

/-- English month abbreviation, for the `"%b %d"` alert date format. -/
def monthAbbrev (m : Int) : String :=
  if m = 1 then "Jan" else if m = 2 then "Feb" else if m = 3 then "Mar"
  else if m = 4 then "Apr" else if m = 5 then "May" else if m = 6 then "Jun"
  else if m = 7 then "Jul" else if m = 8 then "Aug" else if m = 9 then "Sep"
  else if m = 10 then "Oct" else if m = 11 then "Nov" else "Dec"

/-- `date.strftime("%b %d")` (zero-padded day), the `ALERT_DATE_FORMAT`. -/
def formatAlertDate (dt : Date) : String :=
  monthAbbrev dt.m ++ " " ++
    (if dt.d < 10 then "0" ++ toString dt.d else toString dt.d)

/-- The participant's community code: the last non-null `community` cell of
any of the participant's rows (in the project the field is filled on the
single recruitment row). -/
def communityOf (df : List Row) (p : Nat) : Option Int :=
  lastNonNull Row.community (df.filter (fun r => decide (r.record_id = p)))

/-- Date of the last AZi/Pbo dose of record `p`: max `int_date` over the
rows with `int_azi == 1`.  `none` when there is no parseable dose date, in
which case `strftime`/`strptime` has nothing to format (the source would
raise there; the C1 theorem assumes the date exists). -/
def aziDateOf (df : List Row) (p : Nat) : Option Date :=
  (df.filter (fun r => decide (r.record_id = p ∧ r.int_azi = some 1))).foldl
    (fun acc r => maxOptDate acc r.int_date.val) none

/-- Community code-to-name lookup; `Series.replace` keeps values that the
dictionary does not map, hence the fallback to the code itself. -/
def lookupCommunity (communities : List (Int × String)) (c : Int) : String :=
  match communities.lookup c with
  | some n => n
  | none => toString c

/-- `params.TBV_ALERT_STRING` instantiated:
`"TBV@{community} AZi/Pbo@{last_azi_date}".format(...)`. -/
def tbv_alert_string (community lastAzi : String) : String :=
  "TBV@" ++ community ++ " AZi/Pbo@" ++ lastAzi

/-- `alerts.build_tbv_alerts_df`: the import rows `(record_id,
child_fu_status)` built for the participants to be visited.  The frame is
the outer join of the community series and the last-dose series, so its
index is the union of the ids having a community and the ids having a dose
date; a missing side renders as `"nan"` (the float-NaN formatting of the
source). -/
def build_tbv_alerts_df (df : List Row) (ids : List Nat)
    (communities : List (Int × String)) : List (Nat × String) :=
  let withComm := ids.filter (fun p => (communityOf df p).isSome)
  let withAzi := ids.filter (fun p => (aziDateOf df p).isSome)
  ((withComm ++ withAzi).dedup).map (fun p =>
    (p, tbv_alert_string
      (match communityOf df p with
       | some c => lookupCommunity communities c
       | none => "nan")
      (match aziDateOf df p with
       | some d => formatAlertDate d
       | none => "nan")))

/-- The newly eligible set of `alerts.set_tbv_alerts`:
`get_record_ids_tbv` minus the blocked records (when given). -/
def tbv_records_to_be_visited (df : List Row) (blocked : Option (List Nat)) :
    List Nat :=
  let ids := Alerts.get_record_ids_tbv df
  match blocked with
  | none => ids
  | some b => ids.filter (fun p => decide (p ∉ b))

/-- `alerts.set_tbv_alerts` as the pair of REDCap imports it performs:
first the removal batch (empty status for every active id no longer
eligible; skipped entirely when `get_active_alerts` returns `None`), then
the setup batch built by `build_tbv_alerts_df` for the full newly eligible
set. -/
def set_tbv_alerts (df : List Row) (tbvAlert : String)
    (communities : List (Int × String)) (blocked : Option (List Nat))
    (fuEvent : String) : List (Nat × String) × List (Nat × String) :=
  let toBeVisited := tbv_records_to_be_visited df blocked
  let removals := match get_active_alerts df tbvAlert fuEvent with
    | none => []
    | some active =>
      (active.filter (fun p => decide (p ∉ toBeVisited))).map (fun p => (p, ""))
  (removals, build_tbv_alerts_df df toBeVisited communities)

/-- The observable follow-up-status state of the remote record store: the
`child_fu_status` value of each record id (`none` = never written / NaN). -/
def FuState : Type := Nat → Option String

/-- One REDCap `import_records` write of a status value. -/
def applyWrite (s : FuState) (w : Nat × String) : FuState :=
  fun q => if q = w.1 then some w.2 else s q

/-- A batched import: the writes are applied in list order, so the last
write for a given record id wins. -/
def applyWrites (ws : List (Nat × String)) (s : FuState) : FuState :=
  ws.foldl applyWrite s

/-- The value of the last write for record id `p` in a batch, if any. -/
def lastWriteVal : List (Nat × String) → Nat → Option String
  | [], _ => none
  | w :: ws, p =>
    match lastWriteVal ws p with
    | some v => some v
    | none => if w.1 = p then some w.2 else none

/-- `params.NV_ALERT_STRING` instantiated:
`"NEXT VISIT: {return_date}".format(...)`. -/
def nv_alert_string (returnDate : String) : String :=
  "NEXT VISIT: " ++ returnDate

/-- `get_active_alerts` evaluated against a re-fetched snapshot whose
status column is the current state `s`: `univ` is the set of record ids
having a row at the follow-up status event. -/
def getActiveAlertsState (univ : List Nat) (alert : String) (s : FuState) :
    Option (List Nat) :=
  let nonnull := univ.filter (fun p => (s p).isSome)
  if nonnull.isEmpty then none
  else some (nonnull.filter (fun p => statusMatches alert (s p)))

/-- The removal set of one alert's diff-and-apply step against state `s`:
the active ids no longer eligible (empty when `get_active_alerts` returned
`None`). -/
def alertStepRemovals (univ : List Nat) (alert : String)
    (eligible : List Nat) (s : FuState) : List Nat :=
  match getActiveAlertsState univ alert s with
  | none => []
  | some active => active.filter (fun p => decide (p ∉ eligible))

/-- One alert's diff-and-apply step (the shape shared by
`set_nv_alerts`, `set_tbv_alerts`, `set_nc_alerts`, ...): clear the status
of every active-but-no-longer-eligible id, then write the freshly built
status string of every eligible id.  `eligible` is the already-computed
eligible set (e.g. for `set_nv_alerts`: the next-visit window minus blocked
minus to-be-visited records) and `build` the alert-string builder; both are
functions of the snapshot and of `today` only, not of the status state. -/
def alertStep (univ : List Nat) (alert : String) (eligible : List Nat)
    (build : Nat → String) (s : FuState) : FuState :=
  applyWrites (eligible.map (fun p => (p, build p)))
    (applyWrites ((alertStepRemovals univ alert eligible s).map (fun p => (p, ""))) s)

/-- The writes of one alert resolution pass of `main.py`: a removal batch
followed by a setup batch, both precomputed from the same snapshot. -/
structure AlertStep where
  removals : List Nat
  additions : List (Nat × String)
deriving DecidableEq

/-- Apply one alert's precomputed writes: clears first, then setups. -/
def runStep (st : AlertStep) (s : FuState) : FuState :=
  applyWrites st.additions (applyWrites (st.removals.map (fun p => (p, ""))) s)

/-- Run the set-alert steps in their call order; `main.py` runs
`set_tbv_alerts`, then `set_nc_alerts`, then `set_nv_alerts`, so a later
(higher-priority) step's writes land after an earlier one's. -/
def runSteps (l : List AlertStep) (s : FuState) : FuState :=
  l.foldl (fun s st => runStep st s) s

/-- The fixed call order of the `main.py` `__main__` block: To-Be-Visited,
then Non-Compliant, then Next-Visit (lowest priority first). -/
def mainAlertPass (tbv nc nv : AlertStep) (s : FuState) : FuState :=
  runSteps [tbv, nc, nv] s

/-! ### Lemmas about batched status writes -/

theorem applyWrites_spec (ws : List (Nat × String)) (s : FuState) (p : Nat) :
    applyWrites ws s p =
      match lastWriteVal ws p with
      | some v => some v
      | none => s p := by
  induction ws generalizing s with
  | nil => rfl
  | cons w ws ih =>
    show applyWrites ws (applyWrite s w) p = _
    rw [ih]
    rw [lastWriteVal]
    cases h : lastWriteVal ws p with
    | some v => rfl
    | none =>
      show applyWrite s w p = _
      unfold applyWrite
      by_cases hw : w.1 = p
      · simp [hw]
      · have : ¬p = w.1 := fun hc => hw hc.symm
        simp [hw, this]

theorem lastWriteVal_map (f : Nat → String) (l : List Nat) (q : Nat) :
    lastWriteVal (l.map (fun p => (p, f p))) q =
      if q ∈ l then some (f q) else none := by
  induction l with
  | nil => rfl
  | cons a l ih =>
    show (match lastWriteVal (l.map (fun p => (p, f p))) q with
          | some v => some v
          | none => if a = q then some (f a) else none) = _
    rw [ih]
    by_cases hl : q ∈ l
    · simp [hl]
    · by_cases ha : a = q
      · subst ha
        simp [hl]
      · have : ¬q = a := fun hc => ha hc.symm
        simp [hl, ha, this]

theorem runStep_spec (st : AlertStep) (s : FuState) (p : Nat) :
    runStep st s p =
      match lastWriteVal st.additions p with
      | some v => some v
      | none => if p ∈ st.removals then some "" else s p := by
  unfold runStep
  rw [applyWrites_spec]
  cases h : lastWriteVal st.additions p with
  | some v => rfl
  | none =>
    show applyWrites (st.removals.map (fun p => (p, ""))) s p = _
    rw [applyWrites_spec, lastWriteVal_map (fun _ => "")]
    by_cases hr : p ∈ st.removals <;> simp [hr]

theorem runSteps_untouched (l : List AlertStep) (s : FuState) (p : Nat)
    (h : ∀ st ∈ l, lastWriteVal st.additions p = none ∧ p ∉ st.removals) :
    runSteps l s p = s p := by
  induction l generalizing s with
  | nil => rfl
  | cons st l ih =>
    show runSteps l (runStep st s) p = s p
    rw [ih _ (fun st' hst' => h st' (List.mem_cons_of_mem st hst'))]
    rcases h st (List.mem_cons_self st l) with ⟨h1, h2⟩
    rw [runStep_spec, h1]
    simp [h2]

/-- Claim C5: if a participant qualifies for two alerts A and B in the same
resolution pass and B's set-alert step runs after A's, the participant's
final follow-up status string is B's string (last-write-wins), whatever the
unrelated alerts before, between and after them do; the fixed call order of
`main.py` (`mainAlertPass`: TBV, then NC, then NV) therefore encodes the
priority, lowest first. -/
theorem c5_last_write_wins (pre mid post : List AlertStep) (A B : AlertStep)
    (s : FuState) (p : Nat) (v : String)
    (hB : lastWriteVal B.additions p = some v)
    (hpost : ∀ st ∈ post, lastWriteVal st.additions p = none ∧ p ∉ st.removals) :
    runSteps (pre ++ A :: mid ++ B :: post) s p = some v := by
  have hsplit :
      pre ++ A :: mid ++ B :: post = (pre ++ A :: mid) ++ B :: post := by
    simp
  rw [hsplit]
  unfold runSteps
  rw [List.foldl_append]
  show runSteps (B :: post) (runSteps (pre ++ A :: mid) s) p = some v
  show runSteps post (runStep B (runSteps (pre ++ A :: mid) s)) p = some v
  rw [runSteps_untouched post _ p hpost, runStep_spec, hB]

/-- Witness for C5: a concrete pass in the `main.py` order where record 1
qualifies for the TBV alert (step A) and the NC alert (step B), and the
later NV step only touches other records: record 1 ends with the NC
string. -/
theorem c5_last_write_wins_witness :
    runSteps ([] ++ (⟨[], [(1, "TBVATOWN AZiJan 05")]⟩ : AlertStep) ::
        [] ++ (⟨[7], [(1, "NCATOWN 4 weeks")]⟩ : AlertStep) ::
        [(⟨[3], [(4, nv_alert_string "Jul 17")]⟩ : AlertStep)])
      (fun _ => none) 1 = some "NCATOWN 4 weeks" :=
  c5_last_write_wins [] [] [⟨[3], [(4, nv_alert_string "Jul 17")]⟩]
    ⟨[], [(1, "TBVATOWN AZiJan 05")]⟩ ⟨[7], [(1, "NCATOWN 4 weeks")]⟩
    (fun _ => none) 1 "NCATOWN 4 weeks" (by decide) (by decide)

/-! ### The diff-and-apply step against a re-fetched snapshot -/

theorem alertStep_spec (univ : List Nat) (alert : String) (eligible : List Nat)
    (build : Nat → String) (s : FuState) (q : Nat) :
    alertStep univ alert eligible build s q =
      if q ∈ eligible then some (build q)
      else if q ∈ alertStepRemovals univ alert eligible s then some "" else s q := by
  unfold alertStep
  rw [applyWrites_spec, lastWriteVal_map build]
  by_cases hq : q ∈ eligible
  · simp [hq]
  · rw [if_neg hq, if_neg hq]
    rw [applyWrites_spec, lastWriteVal_map (fun _ => "")]
    by_cases hr : q ∈ alertStepRemovals univ alert eligible s <;> simp [hr]

theorem getActiveAlertsState_none (univ : List Nat) (alert : String)
    (s : FuState) (h : getActiveAlertsState univ alert s = none) :
    ∀ q ∈ univ, s q = none := by
  intro q hq
  unfold getActiveAlertsState at h
  by_cases he : (univ.filter (fun p => (s p).isSome)).isEmpty
  · cases hsq : s q with
    | none => rfl
    | some v =>
      exfalso
      have : q ∈ univ.filter (fun p => (s p).isSome) := by
        rw [List.mem_filter]
        exact ⟨hq, by rw [hsq]; rfl⟩
      rw [List.isEmpty_iff] at he
      rw [he] at this
      exact List.not_mem_nil q this
  · rw [if_neg he] at h
    exact Option.noConfusion h

theorem mem_getActiveAlertsState (univ : List Nat) (alert : String)
    (s : FuState) (act : List Nat)
    (h : getActiveAlertsState univ alert s = some act) (q : Nat) :
    q ∈ act ↔ q ∈ univ ∧ (s q).isSome = true ∧ statusMatches alert (s q) = true := by
  unfold getActiveAlertsState at h
  by_cases he : (univ.filter (fun p => (s p).isSome)).isEmpty
  · rw [if_pos he] at h
    exact Option.noConfusion h
  · rw [if_neg he] at h
    have hact := (Option.some.injEq _ _).mp h
    rw [← hact]
    simp [List.mem_filter, and_assoc]
    exact fun _ => and_comm

theorem mem_alertStepRemovals (univ : List Nat) (alert : String)
    (eligible : List Nat) (s : FuState) (q : Nat) :
    q ∈ alertStepRemovals univ alert eligible s ↔
      q ∈ univ ∧ (s q).isSome = true ∧ statusMatches alert (s q) = true ∧
        q ∉ eligible := by
  unfold alertStepRemovals
  cases hA : getActiveAlertsState univ alert s with
  | none =>
    simp only [List.not_mem_nil, false_iff]
    rintro ⟨hu, hsome, -, -⟩
    rw [getActiveAlertsState_none univ alert s hA q hu] at hsome
    exact Bool.noConfusion hsome
  | some act =>
    rw [List.mem_filter, mem_getActiveAlertsState univ alert s act hA q]
    simp [and_assoc]

/-- Claim C6: applying an alert's diff-and-apply step twice in a row on an
unchanged snapshot (same eligible set, same alert-string builder — i.e.
same `today`) yields the same observable follow-up-status state at every
record: the second application is a no-op, even though it re-sends
identical content; in particular the set of active alerts is the same after
either application.  Eligible records are simply rewritten with the
identical string; an id removed by the second pass would have to carry a
matching status while not eligible, which the first pass already cleared. -/
theorem c6_diff_and_apply_idempotent (univ : List Nat) (alert : String)
    (eligible : List Nat) (build : Nat → String) (s : FuState) (q : Nat) :
    alertStep univ alert eligible build (alertStep univ alert eligible build s) q =
      alertStep univ alert eligible build s q := by
  by_cases hq : q ∈ eligible
  · rw [alertStep_spec univ alert eligible build
      (alertStep univ alert eligible build s) q, if_pos hq]
    rw [alertStep_spec univ alert eligible build s q, if_pos hq]
  · rw [alertStep_spec univ alert eligible build
      (alertStep univ alert eligible build s) q, if_neg hq]
    by_cases hr2 : q ∈ alertStepRemovals univ alert eligible
        (alertStep univ alert eligible build s)
    · rw [if_pos hr2]
      rcases (mem_alertStepRemovals univ alert eligible
        (alertStep univ alert eligible build s) q).mp hr2 with ⟨hu, hsome, hmatch, hne⟩
      by_cases hr1 : q ∈ alertStepRemovals univ alert eligible s
      · rw [alertStep_spec univ alert eligible build s q, if_neg hq, if_pos hr1]
      · exfalso
        rw [alertStep_spec univ alert eligible build s q, if_neg hq, if_neg hr1]
          at hsome hmatch
        exact hr1 ((mem_alertStepRemovals univ alert eligible s q).mpr
          ⟨hu, hsome, hmatch, hne⟩)
    · rw [if_neg hr2]

/-! ### Transport lemmas: the in-place datetime conversions do not change
record ids or the date values the predicates read -/

theorem recordIds_map_preserving (g : Row → Row)
    (hg : ∀ r, (g r).record_id = r.record_id) (df : List Row) :
    recordIds (df.map g) = recordIds df := by
  unfold recordIds
  rw [List.map_map]
  congr 1
  exact List.map_congr_left (fun r _ => hg r)

theorem maxDateOf_map_preserving (f : Row → DateCell) (g : Row → Row)
    (hg : ∀ r, (g r).record_id = r.record_id)
    (hf : ∀ r, (f (g r)).val = (f r).val) (df : List Row) (p : Nat) :
    maxDateOf f (df.map g) p = maxDateOf f df p := by
  induction df with
  | nil => rfl
  | cons r rest ih =>
    show maxDateOf f (g r :: rest.map g) p = maxDateOf f (r :: rest) p
    simp only [maxDateOf]
    rw [hg r]
    by_cases hr : r.record_id = p
    · rw [if_pos hr, if_pos hr, hf r, ih]
    · rw [if_neg hr, if_neg hr, ih]

theorem maxNextVisit_nvConv (df : List Row) (p : Nat) :
    maxNextVisit (toDatetimeNextVisit df) p = maxNextVisit df p := by
  unfold maxNextVisit toDatetimeNextVisit
  exact maxDateOf_map_preserving Row.int_next_visit
    (fun r => { r with int_next_visit := r.int_next_visit.toDT })
    (fun _ => rfl) (fun r => DateCell.val_toDT r.int_next_visit) df p

theorem recordIds_nvConv (df : List Row) :
    recordIds (toDatetimeNextVisit df) = recordIds df := by
  unfold toDatetimeNextVisit
  exact recordIds_map_preserving
    (fun r => { r with int_next_visit := r.int_next_visit.toDT })
    (fun _ => rfl) df

theorem maxNextVisit_ncConv (df : List Row) (p : Nat) :
    maxNextVisit (toDatetimeNc df) p = maxNextVisit df p := by
  unfold maxNextVisit toDatetimeNc
  exact maxDateOf_map_preserving Row.int_next_visit
    (fun r => { r with int_next_visit := r.int_next_visit.toDT,
                       comp_date := r.comp_date.toDT })
    (fun _ => rfl) (fun r => DateCell.val_toDT r.int_next_visit) df p

theorem maxCompDate_ncConv (df : List Row) (p : Nat) :
    maxCompDate (toDatetimeNc df) p = maxCompDate df p := by
  unfold maxCompDate toDatetimeNc
  exact maxDateOf_map_preserving Row.comp_date
    (fun r => { r with int_next_visit := r.int_next_visit.toDT,
                       comp_date := r.comp_date.toDT })
    (fun _ => rfl) (fun r => DateCell.val_toDT r.comp_date) df p

theorem recordIds_ncConv (df : List Row) :
    recordIds (toDatetimeNc df) = recordIds df := by
  unfold toDatetimeNc
  exact recordIds_map_preserving
    (fun r => { r with int_next_visit := r.int_next_visit.toDT,
                       comp_date := r.comp_date.toDT })
    (fun _ => rfl) df

theorem completedEpi_ncConv (df : List Row) (p : Nat) :
    completedEpi (toDatetimeNc df) p = completedEpi df p := by
  unfold completedEpi toDatetimeNc
  rw [List.any_map]
  rfl

/-! ### Membership characterization of the Next-Visit window -/

theorem mem_get_record_ids_nv (df : List Row) (b a : Int) (today : Date)
    (p : Nat) :
    p ∈ (get_record_ids_nv df b a today).1 ↔
      ∃ d, maxNextVisit df p = some d ∧
        -b ≤ toDays today - toDays d ∧ toDays today - toDays d < a := by
  unfold get_record_ids_nv
  rw [List.mem_filter]
  simp only [maxNextVisit_nvConv, recordIds_nvConv]
  cases hmax : maxNextVisit df p with
  | none =>
    simp only [hmax]
    constructor
    · rintro ⟨-, hfalse⟩
      exact Bool.noConfusion hfalse
    · rintro ⟨d, hd, -⟩
      exact Option.noConfusion hd
  | some d =>
    simp only [hmax]
    constructor
    · rintro ⟨-, hcond⟩
      rw [Bool.and_eq_true, decide_eq_true_eq, decide_eq_true_eq] at hcond
      exact ⟨d, rfl, hcond.1, hcond.2⟩
    · rintro ⟨d', hd', h1, h2⟩
      injection hd' with hdd
      subst hdd
      refine ⟨?_, ?_⟩
      · rw [← recordIds_nvConv df]
        rw [← maxNextVisit_nvConv df p] at hmax
        exact maxDateOf_some_mem hmax
      · rw [Bool.and_eq_true, decide_eq_true_eq, decide_eq_true_eq]
        exact ⟨h1, h2⟩

/-! ### Claim C2: the Next-Visit window boundary -/

/-- A snapshot with one participant whose only next-visit date is
2024-07-02, eight days before the reference `today` 2024-07-10 — i.e.
exactly `today - days_before - 1` for the configured `DAYS_BEFORE_NV = 7`. -/
def nvBoundaryFrame : List Row :=
  [{ mkRow 1 "epipenta1_v0_recru_arm_1" with
      int_next_visit := DateCell.ts (some ⟨2024, 7, 2⟩) }]

/-- Claim C2 is false on the code: with the configured window
(`days_before = 7`, `days_after = 28`) a participant whose most recent
next-visit date is `today - days_before - 1` (here 2024-07-02 against
today = 2024-07-10) is still INCLUDED by `get_record_ids_nv`, because the
past side of the window is bounded by `days_after`, not by `days_before`. -/
theorem c2_nv_boundary_counterexample :
    maxNextVisit nvBoundaryFrame 1 = some ⟨2024, 7, 2⟩ ∧
    toDays ⟨2024, 7, 10⟩ - toDays ⟨2024, 7, 2⟩ = 7 + 1 ∧
    1 ∈ (get_record_ids_nv nvBoundaryFrame 7 28 ⟨2024, 7, 10⟩).1 := by
  decide

/-- Claim C2 (amended): a participant whose most recent next-visit date is
exactly `today - days_before` is included in the Next-Visit window (for any
`0 ≤ days_before < days_after`); one day further in the past the
participant is still included whenever `days_before + 1 < days_after` (as
with the configured 7/28); the past-side exclusion boundary is
`days_after`: a date of exactly `today - days_after` is excluded. -/
theorem c2_nv_boundary_amended (df : List Row) (b a : Int) (today : Date)
    (p : Nat) (d : Date) (hmax : maxNextVisit df p = some d) :
    (toDays today - toDays d = b → 0 ≤ b → b < a →
      p ∈ (get_record_ids_nv df b a today).1) ∧
    (toDays today - toDays d = b + 1 → 0 ≤ b → b + 1 < a →
      p ∈ (get_record_ids_nv df b a today).1) ∧
    (toDays today - toDays d = a → p ∉ (get_record_ids_nv df b a today).1) := by
  refine ⟨?_, ?_, ?_⟩
  · intro h hb hba
    rw [mem_get_record_ids_nv]
    exact ⟨d, hmax, by omega, by omega⟩
  · intro h hb hba
    rw [mem_get_record_ids_nv]
    exact ⟨d, hmax, by omega, by omega⟩
  · intro h hmem
    rw [mem_get_record_ids_nv] at hmem
    rcases hmem with ⟨d', hd', h1, h2⟩
    rw [hmax] at hd'
    injection hd' with hdd
    subst hdd
    omega

/-- A snapshot with one participant whose next-visit date is exactly
`today - days_before` (2024-07-03 against today = 2024-07-10). -/
def nvBoundaryInclFrame : List Row :=
  [{ mkRow 1 "epipenta1_v0_recru_arm_1" with
      int_next_visit := DateCell.ts (some ⟨2024, 7, 3⟩) }]

/-- Witness for the amended C2: at `today - days_before` exactly, the
participant is included; at `today - days_after` exactly, excluded. -/
theorem c2_nv_boundary_amended_witness :
    maxNextVisit nvBoundaryInclFrame 1 = some ⟨2024, 7, 3⟩ ∧
    1 ∈ (get_record_ids_nv nvBoundaryInclFrame 7 28 ⟨2024, 7, 10⟩).1 ∧
    1 ∉ (get_record_ids_nv nvBoundaryInclFrame 7 28 ⟨2024, 7, 31⟩).1 :=
  ⟨by decide,
   (c2_nv_boundary_amended nvBoundaryInclFrame 7 28 ⟨2024, 7, 10⟩ 1
     ⟨2024, 7, 3⟩ (by decide)).1 (by decide) (by decide) (by decide),
   (c2_nv_boundary_amended nvBoundaryInclFrame 7 28 ⟨2024, 7, 31⟩ 1
     ⟨2024, 7, 3⟩ (by decide)).2.2 (by decide)⟩

/-! ### Claim C8: the Non-Compliant predicate -/

/-- Claim C8: `get_record_ids_nc` returns exactly the participants whose
last recorded return date `d` (max of `int_next_visit`) is more than
`days_to_nc` days before today, whose latest non-compliance-visit date
(max `comp_date`) is not later than `d` (a missing `comp_date` never
supersedes), and who have not completed the final EPI milestone
(`intervention_complete == 2` at the MRV2 event). -/
theorem c8_nc_characterization (df : List Row) (c : Int) (today : Date)
    (p : Nat) :
    p ∈ (get_record_ids_nc df c today).1 ↔
      ∃ d, maxNextVisit df p = some d ∧
        toDays today - toDays d > c ∧
        optDateGt (maxCompDate df p) (some d) = false ∧
        completedEpi df p = false := by
  unfold get_record_ids_nc
  rw [List.mem_filter]
  simp only [maxNextVisit_ncConv, maxCompDate_ncConv, recordIds_ncConv,
    completedEpi_ncConv]
  cases hmax : maxNextVisit df p with
  | none =>
    simp only [hmax]
    constructor
    · rintro ⟨-, hfalse⟩
      exact Bool.noConfusion hfalse
    · rintro ⟨d, hd, -⟩
      exact Option.noConfusion hd
  | some d =>
    simp only [hmax]
    constructor
    · rintro ⟨-, hcond⟩
      simp only [Bool.and_eq_true, Bool.not_eq_true', decide_eq_true_eq]
        at hcond
      exact ⟨d, rfl, hcond.1.2, hcond.1.1, hcond.2⟩
    · rintro ⟨d', hd', h1, h2, h3⟩
      injection hd' with hdd
      subst hdd
      refine ⟨?_, ?_⟩
      · rw [← recordIds_ncConv df]
        rw [← maxNextVisit_ncConv df p] at hmax
        exact maxDateOf_some_mem hmax
      · simp only [Bool.and_eq_true, Bool.not_eq_true', decide_eq_true_eq]
        exact ⟨⟨h2, h1⟩, h3⟩

/-- Witness-style instance of C8 evaluated on a concrete snapshot: a
participant expected back 2024-05-01, never superseded by a `comp_date`,
not EPI-complete, is non-compliant on 2024-07-10 with `days_to_nc = 28`. -/
theorem c8_nc_characterization_example :
    1 ∈ (get_record_ids_nc
      [{ mkRow 1 "epipenta1_v0_recru_arm_1" with
          int_next_visit := DateCell.ts (some ⟨2024, 5, 1⟩) }]
      28 ⟨2024, 7, 10⟩).1 := by
  decide

/-! ### Claim C7: predicate purity and the in-place conversions -/

/-- A snapshot whose `int_next_visit` column is still an unparsed string,
as in a freshly exported frame. -/
def nvMutationFrame : List Row :=
  [{ mkRow 1 "epipenta1_v0_recru_arm_1" with
      int_next_visit := DateCell.raw (some "2024-07-02 00:00:00") }]

/-- Claim C7 is false on the code: `get_record_ids_nv` does not leave its
input frame unchanged — it converts the `int_next_visit` column to
datetime in place (`x['int_next_visit'] = pandas.to_datetime(...)` where
`x` aliases the caller's frame), so the frame it leaves behind differs from
the input whenever the column held strings. -/
theorem c7_purity_counterexample :
    (get_record_ids_nv nvMutationFrame 7 28 ⟨2024, 7, 10⟩).2 ≠
      nvMutationFrame := by
  decide

theorem toDatetimeNextVisit_idem (df : List Row) :
    toDatetimeNextVisit (toDatetimeNextVisit df) = toDatetimeNextVisit df := by
  induction df with
  | nil => rfl
  | cons r rest ih =>
    simp only [toDatetimeNextVisit, List.map_cons] at *
    rw [ih]
    simp [DateCell.toDT_toDT]

/-- Claim C7 (amended): every predicate's output is a deterministic
function of `(data, today, config)` alone, but not every predicate is free
of side effects on its input: `get_record_ids_nv` (like `get_record_ids_nc`
and the other date-parsing predicates) converts its date column in place.
The mutation is idempotent and value-preserving: re-running the predicate
on the frame it left behind returns the same id set and the same frame. -/
theorem c7_purity_amended (df : List Row) (b a : Int) (today : Date) :
    get_record_ids_nv (get_record_ids_nv df b a today).2 b a today =
      get_record_ids_nv df b a today := by
  show get_record_ids_nv (toDatetimeNextVisit df) b a today = _
  unfold get_record_ids_nv
  rw [toDatetimeNextVisit_idem]

/-! ### Claim C3: the To-Be-Visited supervision index example -/

/-- A snapshot in which participant 1 has 3 recorded AZi/Pbo doses and 2
household visits with the child seen. -/
def tbvDosesFrame : List Row :=
  [{ mkRow 1 "epipenta1_v0_recru_arm_1" with int_azi := some 1 },
   { mkRow 1 "epipenta2_v1_iptis_arm_1" with int_azi := some 1 },
   { mkRow 1 "epipenta3_v2_iptis_arm_1" with int_azi := some 1 },
   { mkRow 1 "hhafter_1st_dose_o_arm_1" with hh_child_seen := some 1 },
   { mkRow 1 "hhafter_1st_dose_o_arm_1" with hh_child_seen := some 1 }]

/-- Claim C3 is false on the code: a participant with 3 doses and 2
child-seen visits has supervision index 3 − 2 = 1 > 0 and therefore IS in
the set returned by `main.get_record_ids_tbv`, contrary to the claim that
they are not. -/
theorem c3_tbv_example_counterexample :
    sumOf Row.int_azi tbvDosesFrame 1 = 3 ∧
    sumOf Row.hh_child_seen tbvDosesFrame 1 = 2 ∧
    1 ∈ Main.get_record_ids_tbv tbvDosesFrame := by
  decide

/-- Claim C3 (amended): a participant with 3 recorded AZi/Pbo doses and 2
confirmed child-seen household visits IS in the To-Be-Visited set of
`main.get_record_ids_tbv`: the supervision index is doses minus child-seen
visits and a positive difference qualifies. -/
theorem c3_tbv_example_amended (df : List Row) (p : Nat)
    (h1 : sumOf Row.int_azi df p = 3)
    (h2 : sumOf Row.hh_child_seen df p = 2)
    (h3 : p ∈ recordIds df) :
    p ∈ Main.get_record_ids_tbv df := by
  unfold Main.get_record_ids_tbv
  rw [List.mem_filter]
  refine ⟨h3, ?_⟩
  rw [h1, h2]
  decide

/-- A second 3-doses/2-visits snapshot (participant 2, with an unrelated
fully supervised participant 9) for the amended-C3 witness. -/
def tbvDosesFrameW : List Row :=
  [{ mkRow 2 "epipenta1_v0_recru_arm_1" with int_azi := some 1 },
   { mkRow 2 "epipenta2_v1_iptis_arm_1" with int_azi := some 1 },
   { mkRow 2 "epipenta3_v2_iptis_arm_1" with int_azi := some 1 },
   { mkRow 2 "hhafter_1st_dose_o_arm_1" with hh_child_seen := some 1 },
   { mkRow 2 "hhafter_1st_dose_o_arm_1" with hh_child_seen := some 1 },
   { mkRow 9 "epipenta1_v0_recru_arm_1" with int_azi := some 1 },
   { mkRow 9 "hhafter_1st_dose_o_arm_1" with hh_child_seen := some 1 }]

/-- Witness for the amended C3. -/
theorem c3_tbv_example_amended_witness :
    sumOf Row.int_azi tbvDosesFrameW 2 = 3 ∧
    sumOf Row.hh_child_seen tbvDosesFrameW 2 = 2 ∧
    2 ∈ Main.get_record_ids_tbv tbvDosesFrameW :=
  ⟨by decide, by decide,
   c3_tbv_example_amended tbvDosesFrameW 2 (by decide) (by decide) (by decide)⟩

/-! ### Claim C9: completed vs unreachable at the end of the trial
follow-up -/

/-- A snapshot with one 18th-month household-follow-up row on which the
child was seen (`hh_child_seen == 1`) and the reachable status is
"unreachable" (`reachable_status == 2`): the row satisfies both queries. -/
def endFuOverlapFrame : List Row :=
  [{ mkRow 1 "hhat_18th_month_of_arm_1" with
      repeat_instr := "household_follow_up",
      hh_child_seen := some 1,
      reachable_status := some 2 }]

/-- Claim C9 is false on the code: the completed (`record_ids_seen`) and
unreachable (`records_unreachable`) sets returned by
`get_record_ids_end_trial_fu` are not mutually exclusive — participant 1
belongs to both. -/
theorem c9_end_fu_counterexample :
    1 ∈ (get_record_ids_end_trial_fu endFuOverlapFrame 0 ⟨2024, 7, 10⟩ 18 17).2.1 ∧
    1 ∈ (get_record_ids_end_trial_fu endFuOverlapFrame 0 ⟨2024, 7, 10⟩ 18 17).2.2 := by
  decide

/-- Claim C9 (amended): the two sets returned by
`get_record_ids_end_trial_fu` can overlap (both are row filters on the same
event and instrument, with no exclusion between them); what is mutually
exclusive with the completed set is the derived `real_unreachable` set that
`set_end_fu_alerts` computes for its report: unreachable minus completed. -/
theorem c9_end_fu_amended (df : List Row) (daysBefore : Int) (today : Date)
    (p : Nat) (h : p ∈ set_end_fu_real_unreachable df daysBefore today) :
    p ∉ (get_record_ids_end_trial_fu df daysBefore today 18 17).2.1 := by
  unfold set_end_fu_real_unreachable at h
  rw [List.mem_filter] at h
  exact of_decide_eq_true h.2

/-- A snapshot where participant 2 is unreachable at the 18th-month visit
and never seen, for the amended-C9 witness. -/
def endFuUnreachFrame : List Row :=
  [{ mkRow 2 "hhat_18th_month_of_arm_1" with
      repeat_instr := "household_follow_up",
      reachable_status := some 2 }]

/-- Witness for the amended C9. -/
theorem c9_end_fu_amended_witness :
    2 ∈ set_end_fu_real_unreachable endFuUnreachFrame 0 ⟨2024, 7, 10⟩ ∧
    2 ∉ (get_record_ids_end_trial_fu endFuUnreachFrame 0 ⟨2024, 7, 10⟩ 18 17).2.1 :=
  ⟨by decide,
   c9_end_fu_amended endFuUnreachFrame 0 ⟨2024, 7, 10⟩ 2 (by decide)⟩

/-! ### Claim C4: the custom-status / blocked-records filter -/

theorem mem_custom_ids (df : List Row) (alerts : List String)
    (fuEvent : String) (p : Nat) :
    (∃ l, (get_record_ids_with_custom_status df alerts fuEvent).1 = some l ∧
        p ∈ l) ↔
      ∃ r ∈ df, r.record_id = p ∧ r.event = fuEvent ∧
        ∃ s, r.child_fu_status = some s ∧
          (∀ al ∈ alerts, strBegins al s = false) ∧
          s ∉ blankStatusesExcluded := by
  cases hA : ((statusRows df fuEvent).filter
      (fun r => r.child_fu_status.isSome)).isEmpty with
  | true =>
    simp only [get_record_ids_with_custom_status, hA, if_true]
    constructor
    · rintro ⟨l, hl, -⟩
      exact Option.noConfusion hl
    · rintro ⟨r, hr, hrid, hev, s, hs, -, -⟩
      exfalso
      rw [List.isEmpty_iff] at hA
      have hmem : r ∈ (statusRows df fuEvent).filter
          (fun r => r.child_fu_status.isSome) := by
        rw [List.mem_filter]
        refine ⟨?_, ?_⟩
        · unfold statusRows
          rw [List.mem_filter]
          exact ⟨hr, decide_eq_true hev⟩
        · rw [hs]
          rfl
      rw [hA] at hmem
      exact List.not_mem_nil r hmem
  | false =>
    simp only [get_record_ids_with_custom_status, hA, if_false]
    constructor
    · rintro ⟨l, hl, hpl⟩
      injection hl with hl'
      subst hl'
      rcases List.mem_map.mp hpl with ⟨r, hr, hrp⟩
      rcases List.mem_filter.mp hr with ⟨hr1, hblank⟩
      rcases List.mem_filter.mp hr1 with ⟨hr2, halerts⟩
      rcases List.mem_filter.mp hr2 with ⟨hr3, hsome⟩
      rcases List.mem_filter.mp hr3 with ⟨hrdf, hev⟩
      cases hcs : r.child_fu_status with
      | none =>
        rw [hcs] at hsome
        exact Bool.noConfusion hsome
      | some s =>
        refine ⟨r, hrdf, hrp, of_decide_eq_true hev, s, hcs, ?_, ?_⟩
        · intro al hal
          have hb := List.all_eq_true.mp halerts al hal
          rw [Bool.not_eq_true'] at hb
          rw [hcs] at hb
          exact hb
        · rw [hcs] at hblank
          exact of_decide_eq_true hblank
    · rintro ⟨r, hrdf, hrp, hev, s, hs, hall, hnb⟩
      refine ⟨_, rfl, ?_⟩
      rw [List.mem_map]
      refine ⟨r, ?_, hrp⟩
      rw [List.mem_filter]
      refine ⟨?_, ?_⟩
      · rw [List.mem_filter]
        refine ⟨?_, ?_⟩
        · rw [List.mem_filter]
          refine ⟨?_, ?_⟩
          · unfold statusRows
            rw [List.mem_filter]
            exact ⟨hrdf, decide_eq_true hev⟩
          · rw [hs]
            rfl
        · rw [List.all_eq_true]
          intro al hal
          rw [Bool.not_eq_true']
          rw [hs]
          exact hall al hal
      · rw [hs]
        exact decide_eq_true hnb

theorem mem_blank_corrections (df : List Row) (alerts : List String)
    (fuEvent : String) (p : Nat) :
    (p, "") ∈ (get_record_ids_with_custom_status df alerts fuEvent).2 ↔
      ∃ r ∈ df, r.record_id = p ∧ r.event = fuEvent ∧
        ∃ s, r.child_fu_status = some s ∧
          (∀ al ∈ alerts, strBegins al s = false) ∧
          s ∈ blankStatusesToCorrect := by
  cases hA : ((statusRows df fuEvent).filter
      (fun r => r.child_fu_status.isSome)).isEmpty with
  | true =>
    simp only [get_record_ids_with_custom_status, hA, if_true]
    constructor
    · rintro h
      exact (List.not_mem_nil _ h).elim
    · rintro ⟨r, hr, hrid, hev, s, hs, -, -⟩
      exfalso
      rw [List.isEmpty_iff] at hA
      have hmem : r ∈ (statusRows df fuEvent).filter
          (fun r => r.child_fu_status.isSome) := by
        rw [List.mem_filter]
        refine ⟨?_, ?_⟩
        · unfold statusRows
          rw [List.mem_filter]
          exact ⟨hr, decide_eq_true hev⟩
        · rw [hs]
          rfl
      rw [hA] at hmem
      exact List.not_mem_nil r hmem
  | false =>
    simp only [get_record_ids_with_custom_status, hA, if_false]
    constructor
    · rintro hmem
      rcases List.mem_map.mp hmem with ⟨r, hr, hrp⟩
      rw [Prod.mk.injEq] at hrp
      rcases List.mem_filter.mp hr with ⟨hr1, hblank⟩
      rcases List.mem_filter.mp hr1 with ⟨hr2, halerts⟩
      rcases List.mem_filter.mp hr2 with ⟨hr3, hsome⟩
      rcases List.mem_filter.mp hr3 with ⟨hrdf, hev⟩
      cases hcs : r.child_fu_status with
      | none =>
        rw [hcs] at hsome
        exact Bool.noConfusion hsome
      | some s =>
        refine ⟨r, hrdf, hrp.1, of_decide_eq_true hev, s, hcs, ?_, ?_⟩
        · intro al hal
          have hb := List.all_eq_true.mp halerts al hal
          rw [Bool.not_eq_true'] at hb
          rw [hcs] at hb
          exact hb
        · rw [hcs] at hblank
          exact of_decide_eq_true hblank
    · rintro ⟨r, hrdf, hrp, hev, s, hs, hall, hnb⟩
      refine List.mem_map.mpr ⟨r, ?_, by simp [hrp]⟩
      rw [List.mem_filter]
      refine ⟨?_, ?_⟩
      · rw [List.mem_filter]
        refine ⟨?_, ?_⟩
        · rw [List.mem_filter]
          refine ⟨?_, ?_⟩
          · unfold statusRows
            rw [List.mem_filter]
            exact ⟨hrdf, decide_eq_true hev⟩
          · rw [hs]
            rfl
        · rw [List.all_eq_true]
          intro al hal
          rw [Bool.not_eq_true']
          rw [hs]
          exact hall al hal
      · rw [hs]
        exact decide_eq_true hnb

/-- A snapshot where participant 1's status is seven spaces: a
whitespace-only string that the correction lists treat inconsistently. -/
def blankStatusFrame : List Row :=
  [{ mkRow 1 "epipenta1_v0_recru_arm_1" with
      child_fu_status := some "       " }]

/-- Claim C4 is false on the code: a status of exactly seven spaces is
detected and cleared (it is in the seven-entry correction list) AND still
returned as a custom status (the exclusion list only has the one-to-six
space strings), so a whitespace-only status is not always "cleared and not
treated as custom"; strings of eight or more spaces are not even cleared. -/
theorem c4_custom_status_counterexample :
    (get_record_ids_with_custom_status blankStatusFrame ["TBV"]
      "epipenta1_v0_recru_arm_1").2 = [(1, "")] ∧
    (get_record_ids_with_custom_status blankStatusFrame ["TBV"]
      "epipenta1_v0_recru_arm_1").1 = some [1] := by
  decide

/-- Claim C4 (amended): `get_record_ids_with_custom_status` returns exactly
the participants with a row at the follow-up event whose non-null status
starts with none of the defined alert codes and is not one of the strings
of exactly 1 to 6 spaces; and it clears (writes back as empty) exactly the
no-alert-code statuses of 1 to 7 spaces.  Hence a 7-space status is both
cleared and still treated as custom, and whitespace strings of length 8 or
more are neither cleared nor exempted from the custom set. -/
theorem c4_custom_status_amended (df : List Row) (alerts : List String)
    (fuEvent : String) (p : Nat) :
    ((∃ l, (get_record_ids_with_custom_status df alerts fuEvent).1 = some l ∧
        p ∈ l) ↔
      ∃ r ∈ df, r.record_id = p ∧ r.event = fuEvent ∧
        ∃ s, r.child_fu_status = some s ∧
          (∀ al ∈ alerts, strBegins al s = false) ∧
          s ∉ blankStatusesExcluded) ∧
    ((p, "") ∈ (get_record_ids_with_custom_status df alerts fuEvent).2 ↔
      ∃ r ∈ df, r.record_id = p ∧ r.event = fuEvent ∧
        ∃ s, r.child_fu_status = some s ∧
          (∀ al ∈ alerts, strBegins al s = false) ∧
          s ∈ blankStatusesToCorrect) :=
  ⟨mem_custom_ids df alerts fuEvent p, mem_blank_corrections df alerts fuEvent p⟩

/-! ### Claim C10: the `None` branch when no status is set -/

/-- Claim C10: when no participant has a non-null follow-up status at the
status event, `get_active_alerts` and `get_record_ids_with_custom_status`
return `None` rather than an empty set, and the set-alert steps
(`set_tbv_alerts` here, the other `set_*_alerts` having the identical
`if records_with_alerts is not None` guard) skip the alert-removal import
entirely: the removal batch is empty. -/
theorem c10_no_status_none (df : List Row) (alert : String)
    (alerts : List String) (tbvAlert : String)
    (communities : List (Int × String)) (blocked : Option (List Nat))
    (fuEvent : String)
    (h : ∀ r ∈ df, r.event = fuEvent → r.child_fu_status = none) :
    get_active_alerts df alert fuEvent = none ∧
    (get_record_ids_with_custom_status df alerts fuEvent).1 = none ∧
    (set_tbv_alerts df tbvAlert communities blocked fuEvent).1 = [] := by
  have hempty : (statusRows df fuEvent).filter
      (fun r => r.child_fu_status.isSome) = [] := by
    rw [List.eq_nil_iff_forall_not_mem]
    intro r hr
    rcases List.mem_filter.mp hr with ⟨hr1, hsome⟩
    rcases List.mem_filter.mp hr1 with ⟨hrdf, hev⟩
    rw [h r hrdf (of_decide_eq_true hev)] at hsome
    exact Bool.noConfusion hsome
  have h1 : get_active_alerts df alert fuEvent = none := by
    simp only [get_active_alerts, hempty]
    rfl
  have h1t : get_active_alerts df tbvAlert fuEvent = none := by
    simp only [get_active_alerts, hempty]
    rfl
  refine ⟨h1, ?_, ?_⟩
  · simp only [get_record_ids_with_custom_status, hempty]
    rfl
  · simp only [set_tbv_alerts, h1t]

/-- A snapshot with a blank status column at the follow-up event (record 2
has a status string, but at a different event). -/
def noStatusFrame : List Row :=
  [mkRow 1 "epipenta1_v0_recru_arm_1",
   { mkRow 2 "hhafter_1st_dose_o_arm_1" with child_fu_status := some "X" }]

/-- Witness for C10. -/
theorem c10_no_status_none_witness :
    get_active_alerts noStatusFrame "TBV" "epipenta1_v0_recru_arm_1" = none ∧
    (get_record_ids_with_custom_status noStatusFrame ["TBV"]
      "epipenta1_v0_recru_arm_1").1 = none ∧
    (set_tbv_alerts noStatusFrame "TBV" [] none
      "epipenta1_v0_recru_arm_1").1 = [] :=
  c10_no_status_none noStatusFrame "TBV" ["TBV"] "TBV" [] none
    "epipenta1_v0_recru_arm_1" (by decide)

/-! ### Claim C1: reconciliation removes `active − eligible`, sets up all
eligible -/

theorem mem_build_tbv_alerts_df (df : List Row) (ids : List Nat)
    (communities : List (Int × String)) (p : Nat) :
    (∃ str, (p, str) ∈ build_tbv_alerts_df df ids communities) ↔
      p ∈ ids ∧
        ((communityOf df p).isSome = true ∨ (aziDateOf df p).isSome = true) := by
  unfold build_tbv_alerts_df
  constructor
  · rintro ⟨str, hmem⟩
    rcases List.mem_map.mp hmem with ⟨q, hq, heq⟩
    rw [Prod.mk.injEq] at heq
    rcases heq with ⟨hq1, -⟩
    subst hq1
    rw [List.mem_dedup, List.mem_append] at hq
    rcases hq with hq | hq <;> rcases List.mem_filter.mp hq with ⟨hin, hcond⟩
    · exact ⟨hin, Or.inl hcond⟩
    · exact ⟨hin, Or.inr hcond⟩
  · rintro ⟨hin, hc | hc⟩
    · refine ⟨_, List.mem_map.mpr ⟨p, ?_, rfl⟩⟩
      rw [List.mem_dedup, List.mem_append]
      exact Or.inl (List.mem_filter.mpr ⟨hin, hc⟩)
    · refine ⟨_, List.mem_map.mpr ⟨p, ?_, rfl⟩⟩
      rw [List.mem_dedup, List.mem_append]
      exact Or.inr (List.mem_filter.mpr ⟨hin, hc⟩)

/-- Claim C1: when there are active alerts, the reconciliation step of
`set_tbv_alerts` removes (writes an empty status for) exactly the ids in
`currently active − newly eligible`, and the setup step writes a freshly
built status string for every participant of the full newly eligible set —
not subtracted by the active set.  The second hypothesis supplies what the
build step needs (a community and a last AZi/Pbo dose date for each
eligible participant; without them the source would format `nan` or raise
in `strptime`). -/
theorem c1_set_tbv_reconciliation (df : List Row) (tbvAlert : String)
    (communities : List (Int × String)) (blocked : Option (List Nat))
    (fuEvent : String) (active : List Nat)
    (hact : get_active_alerts df tbvAlert fuEvent = some active)
    (hbuild : ∀ p ∈ tbv_records_to_be_visited df blocked,
      (communityOf df p).isSome = true ∧ (aziDateOf df p).isSome = true)
    (p : Nat) :
    ((p, "") ∈ (set_tbv_alerts df tbvAlert communities blocked fuEvent).1 ↔
      p ∈ active ∧ p ∉ tbv_records_to_be_visited df blocked) ∧
    ((∃ str, (p, str) ∈
        (set_tbv_alerts df tbvAlert communities blocked fuEvent).2) ↔
      p ∈ tbv_records_to_be_visited df blocked) := by
  constructor
  · have hfst : (set_tbv_alerts df tbvAlert communities blocked fuEvent).1 =
        match get_active_alerts df tbvAlert fuEvent with
        | none => []
        | some act =>
          (act.filter (fun p =>
            decide (p ∉ tbv_records_to_be_visited df blocked))).map
            (fun p => (p, "")) := rfl
    rw [hfst, hact]
    constructor
    · intro hmem
      rcases List.mem_map.mp hmem with ⟨q, hq, heq⟩
      rw [Prod.mk.injEq] at heq
      rcases heq with ⟨hq1, -⟩
      subst hq1
      rcases List.mem_filter.mp hq with ⟨hqa, hqne⟩
      exact ⟨hqa, of_decide_eq_true hqne⟩
    · rintro ⟨hpa, hpne⟩
      exact List.mem_map.mpr
        ⟨p, List.mem_filter.mpr ⟨hpa, decide_eq_true hpne⟩, rfl⟩
  · have hsnd : (set_tbv_alerts df tbvAlert communities blocked fuEvent).2 =
        build_tbv_alerts_df df (tbv_records_to_be_visited df blocked)
          communities := rfl
    rw [hsnd, mem_build_tbv_alerts_df]
    constructor
    · rintro ⟨hin, -⟩
      exact hin
    · intro hin
      exact ⟨hin, Or.inl (hbuild p hin).1⟩

/-- A reconciliation snapshot: record 1 carries a stale TBV alert and has
been successfully visited (child seen on the last household follow-up);
record 2 was recruited, has an AZi dose and a community, and has no
household follow-up row yet. -/
def tbvReconFrame : List Row :=
  [{ mkRow 1 "epipenta1_v0_recru_arm_1" with
      child_fu_status := some "TBV@OLDTOWN AZi",
      community := some 5,
      int_azi := some 1,
      int_date := DateCell.ts (some ⟨2024, 6, 1⟩) },
   { mkRow 1 "hhafter_1st_dose_o_arm_1" with
      fu_type := some 2,
      hh_child_seen := some 1 },
   { mkRow 2 "epipenta1_v0_recru_arm_1" with
      community := some 5,
      int_azi := some 1,
      int_date := DateCell.ts (some ⟨2024, 6, 20⟩) }]

/-- Witness for C1: record 1 (active, no longer eligible) is cleared;
record 2 (newly eligible) gets a setup write. -/
theorem c1_set_tbv_reconciliation_witness :
    (1, "") ∈ (set_tbv_alerts tbvReconFrame "TBV" [(5, "TOWN")] none
      "epipenta1_v0_recru_arm_1").1 ∧
    (∃ str, (2, str) ∈ (set_tbv_alerts tbvReconFrame "TBV" [(5, "TOWN")] none
      "epipenta1_v0_recru_arm_1").2) :=
  ⟨((c1_set_tbv_reconciliation tbvReconFrame "TBV" [(5, "TOWN")] none
      "epipenta1_v0_recru_arm_1" [1] (by decide) (by decide) 1).1).mpr
    (by decide),
   ((c1_set_tbv_reconciliation tbvReconFrame "TBV" [(5, "TOWN")] none
      "epipenta1_v0_recru_arm_1" [1] (by decide) (by decide) 2).2).mpr
    (by decide)⟩

end Icaria
